import Mathlib

/-!
Shallow embedding of the order-placement and stock-reservation workflow of the
E-commerce-api repository (src/routes/orders.js, src/Middleware/auth.js,
src/models/Product.js, src/models/DiscountCode.js).

Conventions of the embedding:
* Mongo object ids are `Nat`; money amounts (JS numbers holding prices,
  percentages, fees) are `Rat`; timestamps are `Int` (milliseconds since epoch),
  with the current time `now` passed explicitly where the code calls
  `new Date()`.
* A collection is an association list `List (Nat × doc)`; `findById` models
  `Model.findById`, `updateById` models an in-place document update followed by
  `save()` (or `findByIdAndUpdate`), which on a missing id is a no-op exactly
  like the mongoose calls.
* Each express handler becomes a pure function from the database state and the
  request to a structured response paired with the new database state.  The
  try/catch wrapper of every handler turns an uncaught JS exception into a 500
  response; such paths are embedded as a `serverError` result.
-/

namespace ECom

/-- Decoded JWT payload attached by `verifyToken` as `req.user`
(src/Middleware/auth.js line 12): tokens issued in src/routes/auth.js carry
`id` and `role` ("user", "admin" or "super-admin"). -/
structure AuthUser where
  id : Nat
  role : String
deriving DecidableEq

/-- Product document, from src/models/Product.js (the fields the order
workflow reads: `name`, `price`, `stock`, `isActive`).  `stock` is an `Int`
so that the nonnegativity invariant is a statement, not a typing artifact. -/
structure Product where
  name : String
  price : Rat
  stock : Int
  isActive : Bool
deriving DecidableEq

/-- DiscountCode document, from src/models/DiscountCode.js: fields `code`,
`discount` (percentage value), `expiresAt` (optional Date), `isActive`. -/
structure DiscountCodeDoc where
  code : String
  discount : Rat
  expiresAt : Option Int
  isActive : Bool
deriving DecidableEq

/-- The orders routes read `discount.expiryDate` (src/routes/orders.js lines
555 and 1070), but the DiscountCode schema defines no `expiryDate` path — its
expiry field is named `expiresAt` (src/models/DiscountCode.js line 14).  A
mongoose document yields `undefined` for a path absent from its schema, so
this accessor is constantly `none`, independent of the stored `expiresAt`. -/
def DiscountCodeDoc.expiryDate (_ : DiscountCodeDoc) : Option Int := none

/-- User document, restricted to the one field the orders routes use.
Modelled from the spec: src/models/User.js is not part of the provided
sources; the spec calls this the user's consumed-codes set, and the routes
access it as the array `user.usedDiscountCodes` (src/routes/orders.js lines
525, 532, 1084). -/
structure UserDoc where
  usedDiscountCodes : List String
deriving DecidableEq

/-- One line item of a persisted order: product reference, quantity, unit
price snapshot.  Modelled from the spec: src/models/Order.js is not part of
the provided sources; the spec's OrderLine is product reference, quantity
(positive integer, hence `Nat`), unit price snapshot, matching what the
handler stores (src/routes/orders.js lines 578-582). -/
structure OrderItem where
  product : Nat
  quantity : Nat
  price : Rat
deriving DecidableEq

/-- Customer contact snapshot stored on an order (src/routes/orders.js lines
591-598). -/
structure Address where
  street : String
  city : String
deriving DecidableEq

structure CustomerSnapshot where
  name : String
  email : String
  phone : String
  address : Address
deriving DecidableEq

/-- Order document.  Modelled from the spec: src/models/Order.js is not part
of the provided sources; fields follow the spec's data model for Order and the
object literal built by the POST handler (src/routes/orders.js lines 589-610).
`status` is kept as the stored string, as the handlers compare it with string
literals. -/
structure OrderDoc where
  orderNumber : String
  customerInfo : CustomerSnapshot
  items : List OrderItem
  subtotal : Rat
  discountCode : Option String
  discountAmount : Rat
  deliveryFee : Rat
  totalAmount : Rat
  notes : String
  status : String
  user : Option Nat
deriving DecidableEq

/-- The persistent state the orders routes touch: the Product collection, the
DiscountCode collection, the User collection and the Order collection. -/
structure DB where
  products : List (Nat × Product)
  discounts : List DiscountCodeDoc
  users : List (Nat × UserDoc)
  orders : List (Nat × OrderDoc)
deriving DecidableEq

/-- Model of `Model.findById(id)`: the first document stored under the id. -/
def findById {α : Type} : List (Nat × α) → Nat → Option α
  | [], _ => none
  | e :: rest, i => if e.1 = i then some e.2 else findById rest i

/-- Model of updating the document with the given id (and leaving the
collection unchanged when the id is absent, as `findByIdAndUpdate` and
`save()` on a fetched document behave). -/
def updateById {α : Type} : List (Nat × α) → Nat → (α → α) → List (Nat × α)
  | [], _, _ => []
  | e :: rest, i, f =>
      (if e.1 = i then (e.1, f e.2) else e) :: updateById rest i f

/-- Model of `Model.findByIdAndDelete(id)`: remove the document stored under
the id. -/
def removeById {α : Type} : List (Nat × α) → Nat → List (Nat × α)
  | [], _ => []
  | e :: rest, i => if e.1 = i then removeById rest i else e :: removeById rest i

/-- Model of `Product.findByIdAndUpdate(id, \x7b $inc: \x7b stock: d \x7d \x7d)`. -/
def incStock (s : List (Nat × Product)) (i : Nat) (d : Int) :
    List (Nat × Product) :=
  updateById s i (fun p => { p with stock := p.stock + d })

/-- The stock-restore pass shared by cancellation and deletion
(src/routes/orders.js lines 808-813, 871-876, 918-923): for each line item,
increment the matching product's stock by the line's quantity. -/
def restoreStock (s : List (Nat × Product)) (items : List OrderItem) :
    List (Nat × Product) :=
  items.foldl (fun acc it => incStock acc it.product (it.quantity : Int)) s

/-- Model of `DiscountCode.findOne(\x7b code \x7d)`. -/
def findDiscount (ds : List DiscountCodeDoc) (c : String) :
    Option DiscountCodeDoc :=
  ds.find? (fun d => d.code == c)

/-- JS truthiness of an optional string field: `undefined` and the empty
string are falsy. -/
def truthy : Option String → Bool
  | none => false
  | some s => !s.isEmpty

/-- JS `s.startsWith(pre)`: the characters of `pre` are an initial segment of
the characters of `s`. -/
def strStartsWith (s pre : String) : Bool :=
  pre.data.isPrefixOf s.data

/-- Model of the `verifyToken` middleware (src/Middleware/auth.js): the
external `jwt.verify` is a parameter `verify` mapping a token to its decoded
payload (or `none` on a verification failure).  A missing `Authorization`
header or one not starting with "Bearer " yields 401 (`none` here); otherwise
the token (the header with its 7-character "Bearer " prefix removed, as
`authHeader.replace('Bearer ', '')` yields for such a header) is verified. -/
def verifyTokenAuth (verify : String → Option AuthUser)
    (authHeader : Option String) : Option AuthUser :=
  match authHeader with
  | none => none
  | some h => if strStartsWith h "Bearer " then verify (h.drop 7) else none

/-! The POST /orders handler (src/routes/orders.js lines 472-644). -/

/-- One entry of the request body's `items` array. -/
structure ItemReq where
  product : Nat
  quantity : Int
deriving DecidableEq

structure AddressReq where
  street : Option String
  city : Option String
deriving DecidableEq

structure CustomerInfoReq where
  name : Option String
  email : Option String
  phone : Option String
  address : Option AddressReq
deriving DecidableEq

/-- Body of POST /orders. -/
structure OrderReq where
  customerInfo : Option CustomerInfoReq
  items : Option (List ItemReq)
  notes : Option String
  discountCode : Option String
  deliveryFee : Option Rat
deriving DecidableEq

/-- Outcome of POST /orders, one constructor per `res.status(...)` site of the
handler (plus the middleware's 401). -/
inductive PostOrderResp
  /-- 201 'Order created successfully' (lines 627-636). -/
  | created (orderNumber : String) (totalAmount : Rat) (status : String)
  /-- 400 'Customer name, email, and phone are required' (line 478). -/
  | invalidCustomer
  /-- 400 'Order must contain at least one item' (line 485). -/
  | invalidItems
  /-- 400 'Each item must have a valid product and quantity' (line 498). -/
  | invalidItem
  /-- 400 'Product ... not found or inactive' (line 507). -/
  | productUnavailable (pid : Nat)
  /-- 400 'Insufficient stock for ...' carrying the product name, the
  available stock and the requested quantity (lines 515-518). -/
  | insufficientStock (name : String) (available : Int) (requested : Int)
  /-- 400 'Discount code already used by this user' (line 526). -/
  | discountAlreadyUsed
  /-- 404 'Invalid discount code' (line 540). -/
  | invalidDiscountCode
  /-- 400 'Discount code is not active' (line 548). -/
  | discountNotActive
  /-- 400 'Discount code has expired' (line 556). -/
  | discountExpired
  /-- 500 'Error creating order', the catch block (lines 637-643). -/
  | serverError
  /-- 401 from the `verifyToken` middleware. -/
  | noToken
deriving DecidableEq

/-- HTTP status code of each outcome. -/
def PostOrderResp.httpStatus : PostOrderResp → Nat
  | .created _ _ _ => 201
  | .invalidDiscountCode => 404
  | .serverError => 500
  | .noToken => 401
  | _ => 400

/-- Whether the outcome is the 201 created response. -/
def PostOrderResp.isCreated : PostOrderResp → Bool
  | .created _ _ _ => true
  | _ => false

/-- Model of `user.usedDiscountCodes.push(discountCode); await user.save()`
(src/routes/orders.js lines 532-533). -/
def pushUsedCode (db : DB) (uid : Nat) (c : String) : DB :=
  { db with users := (updateById db.users uid
      (fun u => { u with usedDiscountCodes := u.usedDiscountCodes ++ [c] })) }

/-- The expiry guard `discount.expiryDate && new Date() > discount.expiryDate`
(src/routes/orders.js lines 555 and 1070).  Because the schema has no
`expiryDate` path (see `DiscountCodeDoc.expiryDate`), this is constantly
`false`. -/
def expiredNow (d : DiscountCodeDoc) (now : Int) : Bool :=
  match d.expiryDate with
  | some t => decide (now > t)
  | none => false

/-- The body of the `for (const item of items)` loop of the POST /orders
handler (src/routes/orders.js lines 496-583), applied to the list of items.

Every iteration that survives its guards reaches line 573,
`totalAmount = Math.max(0, subtotal - discountAmount + deliveryFee)`, which
reads the identifier `subtotal` — declared nowhere in the handler (the only
declarations are `totalAmount`, `discountAmount`, `validatedItems`,
`itemTotal`).  Reading an undeclared identifier throws a `ReferenceError`,
which the handler's catch block converts into the 500 response.  Consequently
no iteration ever completes: the loop terminates on the first item, either
with one of the guard rejections or with the 500, and the code after the loop
(order-number generation, `order.save()`, the stock-decrement loop and the 201
response, lines 585-636) is unreachable.  The `[]` case below corresponds to
that unreachable code-after-the-loop (which would itself throw a
`ReferenceError` at line 601 by reading the block-scoped `itemTotal`); it is
never taken because the handler has already checked `items` to be
non-empty. -/
def processItems (db : DB) (auth : AuthUser) (discountCode : Option String)
    (items : List ItemReq) (now : Int) : PostOrderResp × DB :=
  match items with
  | [] => (.serverError, db)
  | item :: _rest =>
    -- line 497: `!item.product || !item.quantity || item.quantity <= 0`
    if item.quantity ≤ 0 then (.invalidItem, db)
    else
      -- lines 505-511: product lookup, reject if missing or inactive
      match findById db.products item.product with
      | none => (.productUnavailable item.product, db)
      | some product =>
        if !product.isActive then (.productUnavailable item.product, db)
        -- lines 513-519: stock availability check
        else if product.stock < item.quantity then
          (.insufficientStock product.name product.stock item.quantity, db)
        else
          -- lines 521-528: `user` is fetched only when the token role is
          -- 'user'; with a discount code present, reject if already used
          match (if auth.role == "user" then findById db.users auth.id
                 else none), discountCode with
          | some u, some c =>
            -- both gates — `discountCode && user && ...` at line 525 and
            -- `user && discountCode` at line 531 — test the JS truthiness
            -- of `discountCode`: the empty string is falsy, so it skips the
            -- whole discount block and falls through to the line-573 throw
            -- with nothing written
            if c.isEmpty then (.serverError, db)
            else if u.usedDiscountCodes.contains c then
              (.discountAlreadyUsed, db)
            else
              -- lines 531-533: the code is pushed onto the user's
              -- usedDiscountCodes and the user saved BEFORE the code is
              -- looked up or validated; the resulting state
              -- `pushUsedCode db auth.id c` is what every later return
              -- carries
              -- lines 537-544: registry lookup
              match findDiscount db.discounts c with
              | none => (.invalidDiscountCode, pushUsedCode db auth.id c)
              | some discount =>
                -- lines 547-552: active check
                if !discount.isActive then
                  (.discountNotActive, pushUsedCode db auth.id c)
                -- lines 555-560: expiry check (constantly false, see above)
                else if expiredNow discount now then
                  (.discountExpired, pushUsedCode db auth.id c)
                else
                  -- line 562 computes discountAmount from the accumulated
                  -- totalAmount, which is still 0 here (the accumulation at
                  -- line 576 is commented out); the value is never read
                  -- because line 573 throws first.
                  (.serverError, pushUsedCode db auth.id c)
          | _, _ =>
            -- line 573: ReferenceError (`subtotal` is not defined) → 500
            (.serverError, db)

/-- The POST /orders handler after `verifyToken` (src/routes/orders.js lines
472-644): `auth` is the decoded token payload `req.user`. -/
def placeOrder (db : DB) (auth : AuthUser) (req : OrderReq) (now : Int) :
    PostOrderResp × DB :=
  -- lines 477-482: required contact fields
  match req.customerInfo with
  | none => (.invalidCustomer, db)
  | some ci =>
    if !(truthy ci.name && truthy ci.email && truthy ci.phone) then
      (.invalidCustomer, db)
    else
      -- lines 484-489: non-empty items array
      match req.items with
      | none => (.invalidItems, db)
      | some items =>
        if items.isEmpty then (.invalidItems, db)
        else processItems db auth req.discountCode items now

/-- The full POST /orders route, middleware included
(`router.post('/', verifyToken, ...)`). -/
def postOrdersRoute (verify : String → Option AuthUser) (db : DB)
    (authHeader : Option String) (req : OrderReq) (now : Int) :
    PostOrderResp × DB :=
  match verifyTokenAuth verify authHeader with
  | none => (.noToken, db)
  | some auth => placeOrder db auth req now

/-! The PATCH /orders/:id/status, PUT /orders/:id and DELETE /orders/:id
handlers (src/routes/orders.js lines 786-939). -/

/-- The `validStatuses` array (src/routes/orders.js lines 790 and 861). -/
def validStatuses : List String :=
  ["pending", "confirmed", "processing", "shipped", "delivered", "cancelled"]

/-- Outcome of the status/update/delete handlers. -/
inductive MutResp
  /-- 200 success. -/
  | ok
  /-- 400 'Invalid status. Valid statuses: ...'. -/
  | invalidStatus
  /-- 404 'Order not found'. -/
  | orderNotFound
  /-- 401 from the `verifyToken` middleware. -/
  | noToken
deriving DecidableEq

/-- The PATCH /orders/:id/status handler after `verifyToken`
(src/routes/orders.js lines 786-831).  The decoded token payload is never
inspected by this handler: there is no role check. -/
def updateStatus (db : DB) (oid : Nat) (status : Option String) :
    MutResp × DB :=
  -- lines 790-796: `!status || !validStatuses.includes(status)`
  match status with
  | none => (.invalidStatus, db)
  | some s =>
    if !(validStatuses.contains s) then (.invalidStatus, db)
    else
      -- lines 798-804: order lookup
      match findById db.orders oid with
      | none => (.orderNotFound, db)
      | some order =>
        -- lines 806-814: if cancelling a not-yet-cancelled order, restore
        -- stock before persisting the status;
        -- lines 816-817: `order.status = status; await order.save()`
        (.ok, { db with
          products :=
            (if s == "cancelled" && order.status != "cancelled" then
              restoreStock db.products order.items
            else db.products),
          orders := updateById db.orders oid
            (fun o => { o with status := s }) })

/-- The full PATCH /orders/:id/status route, middleware included. -/
def patchStatusRoute (verify : String → Option AuthUser) (db : DB)
    (authHeader : Option String) (oid : Nat) (status : Option String) :
    MutResp × DB :=
  match verifyTokenAuth verify authHeader with
  | none => (.noToken, db)
  | some _auth => updateStatus db oid status

/-- Body of PUT /orders/:id: `\x7b customerInfo, status, notes \x7d`. -/
structure PutReq where
  customerInfo : Option CustomerInfoReq
  status : Option String
  notes : Option String
deriving DecidableEq

/-- The customer-info merge of the PUT handler (src/routes/orders.js lines
847-857): each truthy field overwrites the stored one (trimmed, email
lowercased); a present address object replaces the stored address with
missing components defaulted to the empty string. -/
def applyCustomerInfo (o : OrderDoc) (ci : CustomerInfoReq) : OrderDoc :=
  let o := match ci.name with
    | some n => if n.isEmpty then o else
        { o with customerInfo := { o.customerInfo with name := n.trim } }
    | none => o
  let o := match ci.email with
    | some e => if e.isEmpty then o else
        { o with customerInfo :=
            { o.customerInfo with email := e.trim.toLower } }
    | none => o
  let o := match ci.phone with
    | some p => if p.isEmpty then o else
        { o with customerInfo := { o.customerInfo with phone := p.trim } }
    | none => o
  match ci.address with
  | some a =>
      { o with customerInfo := { o.customerInfo with address :=
          { street := a.street.getD "", city := a.city.getD "" } } }
  | none => o

/-- The in-memory customer-info merge step of the PUT handler
(src/routes/orders.js lines 847-857). -/
def putMerged (req : PutReq) (o : OrderDoc) : OrderDoc :=
  match req.customerInfo with
  | some ci => applyCustomerInfo o ci
  | none => o

/-- The PUT handler's guard `status && status !== order.status` (line 860),
evaluated against the merged in-memory order. -/
def putStatusChange (req : PutReq) (o : OrderDoc) : Bool :=
  truthy req.status && ((req.status.getD "") != o.status)

/-- The status assignment of the PUT handler (line 879), applied when the
`status && status !== order.status` guard held. -/
def putStatused (req : PutReq) (o : OrderDoc) : OrderDoc :=
  if putStatusChange req o then { o with status := req.status.getD "" } else o

/-- The notes assignment of the PUT handler (lines 883-885):
`if (notes !== undefined) order.notes = notes.trim()`. -/
def putNoted (req : PutReq) (o : OrderDoc) : OrderDoc :=
  match req.notes with
  | some n => { putStatused req o with notes := n.trim }
  | none => putStatused req o

/-- The PUT /orders/:id handler after `verifyToken` (src/routes/orders.js
lines 834-902).  Like the PATCH handler, it never inspects the caller's
role. -/
def updateOrder (db : DB) (oid : Nat) (req : PutReq) : MutResp × DB :=
  -- lines 838-844: order lookup
  match findById db.orders oid with
  | none => (.orderNotFound, db)
  | some order0 =>
    -- lines 861-867: status validation (only when the line-860 guard held);
    -- the 400 returns before `save()`, so the in-memory customer-info edits
    -- are discarded
    if putStatusChange req (putMerged req order0)
        && !(validStatuses.contains (req.status.getD "")) then
      (.invalidStatus, db)
    else
      -- lines 869-877: restore stock when cancelling a non-cancelled order;
      -- line 887: `await order.save()` persists the merged, statused, noted
      -- order
      (.ok, { db with
        products :=
          (if putStatusChange req (putMerged req order0)
              && (req.status.getD "") == "cancelled"
              && (putMerged req order0).status != "cancelled" then
            restoreStock db.products (putMerged req order0).items
          else db.products),
        orders := updateById db.orders oid
          (fun _ => putNoted req (putMerged req order0)) })

/-- The DELETE /orders/:id handler after `verifyToken` (src/routes/orders.js
lines 905-939): restore stock unless the order is already cancelled, then
remove the order record. -/
def deleteOrder (db : DB) (oid : Nat) : MutResp × DB :=
  match findById db.orders oid with
  | none => (.orderNotFound, db)
  | some order =>
    -- lines 916-924 (stock restore unless already cancelled) and line 926
    -- (`Order.findByIdAndDelete`)
    (.ok, { db with
      products :=
        (if order.status != "cancelled" then
          restoreStock db.products order.items
        else db.products),
      orders := removeById db.orders oid })

/-! The POST /orders/check-discount handler (src/routes/orders.js lines
1033-1124).  It performs no store writes, so it returns only a response. -/

inductive CheckDiscountResp
  /-- 400 'Discount code is required'. -/
  | missingCode
  /-- 400 'Valid total amount is required'. -/
  | missingAmount
  /-- 404 'Invalid discount code'. -/
  | invalidCode
  /-- 400 'Discount code is not active'. -/
  | notActive
  /-- 400 'Discount code has expired'. -/
  | expired
  /-- 400 'You have already used this discount code'. -/
  | alreadyUsed
  /-- 200 'Discount code is valid', carrying the code, its percentage value
  and the three `toFixed(2)`-formatted amounts of the response payload. -/
  | valid (code : String) (value : Rat)
      (discountAmount originalAmount finalAmount : String)
  /-- 401 from the `verifyToken` middleware. -/
  | noToken
deriving DecidableEq

/-- Model of `Number.prototype.toFixed(2)` for the nonnegative,
exactly-representable amounts this workflow produces: round to the nearest
cent (ties up) and print with two decimal places. -/
def toFixed2 (q : Rat) : String :=
  let cents : Int := Rat.floor (q * 100 + 1 / 2)
  let whole := cents / 100
  let frac := (cents % 100).natAbs
  toString whole ++ "." ++
    (if frac < 10 then "0" ++ toString frac else toString frac)

/-- The POST /orders/check-discount handler after `verifyToken`
(src/routes/orders.js lines 1033-1124). -/
def checkDiscount (db : DB) (auth : AuthUser) (discountCode : Option String)
    (totalAmount : Option Rat) (now : Int) : CheckDiscountResp :=
  -- lines 1037-1042: `!discountCode`
  if !(truthy discountCode) then .missingCode
  else
    let c := discountCode.getD ""
    -- lines 1044-1049: `!totalAmount || totalAmount <= 0`
    match totalAmount with
    | none => .missingAmount
    | some t =>
      if t ≤ 0 then .missingAmount
      else
        -- lines 1052-1059: registry lookup
        match findDiscount db.discounts c with
        | none => .invalidCode
        | some discount =>
          -- lines 1062-1067: active check
          if !discount.isActive then .notActive
          -- lines 1070-1075: expiry check on the nonexistent `expiryDate`
          -- path (constantly false, see `DiscountCodeDoc.expiryDate`)
          else if expiredNow discount now then .expired
          -- lines 1082-1090: already-used check for role 'user'
          else if auth.role == "user" &&
              (match findById db.users auth.id with
               | some u => u.usedDiscountCodes.contains c
               | none => false) then .alreadyUsed
          else
            -- lines 1093-1103: amount computation
            let discountAmount := (t * discount.discount) / 100
            let finalAmount := max 0 (t - discountAmount)
            -- lines 1105-1115: 200 response
            .valid discount.code discount.discount (toFixed2 discountAmount)
              (toFixed2 t) (toFixed2 finalAmount)

/-! The Order Ledger as a transition system over the database state, for the
stock-nonnegativity invariant: the four operations that touch product stock
or orders. -/

inductive LedgerOp
  | place (auth : AuthUser) (req : OrderReq) (now : Int)
  | patchStatus (oid : Nat) (status : Option String)
  | putOrder (oid : Nat) (req : PutReq)
  | deleteOp (oid : Nat)

/-- The database state after one Order Ledger operation. -/
def applyOp (db : DB) (op : LedgerOp) : DB :=
  match op with
  | .place auth req now => (placeOrder db auth req now).2
  | .patchStatus oid status => (updateStatus db oid status).2
  | .putOrder oid req => (updateOrder db oid req).2
  | .deleteOp oid => (deleteOrder db oid).2

/-- The database state after a sequence of Order Ledger operations. -/
def runOps (db : DB) (ops : List LedgerOp) : DB :=
  ops.foldl applyOp db

/-- Every product of a catalog store has nonnegative stock. -/
def stocksNonnegL (s : List (Nat × Product)) : Prop :=
  ∀ e ∈ s, 0 ≤ e.2.stock

/-- Every product of the database's catalog has nonnegative stock. -/
def stocksNonneg (db : DB) : Prop :=
  stocksNonnegL db.products

instance (s : List (Nat × Product)) : Decidable (stocksNonnegL s) := by
  unfold stocksNonnegL; infer_instance

instance (db : DB) : Decidable (stocksNonneg db) := by
  unfold stocksNonneg; infer_instance

/-- The stock recorded for a product id (`none` when the catalog has no such
product). -/
def stockOf (s : List (Nat × Product)) (pid : Nat) : Option Int :=
  (findById s pid).map (fun p => p.stock)

/-- Total quantity of a product across the line items of an order. -/
def orderedQty : List OrderItem → Nat → Nat
  | [], _ => 0
  | it :: rest, pid =>
      (if it.product = pid then it.quantity else 0) + orderedQty rest pid

/-! Concrete fixtures used to evaluate the handlers on the inputs named by
the spec's examples. -/

/-- The spec's example product P: price 50.00, stock 10, active. -/
def productC1 : Product :=
  { name := "P", price := 50, stock := 10, isActive := true }

def customerC1 : CustomerInfoReq :=
  { name := some "John Doe", email := some "john@example.com",
    phone := some "+1234567890", address := none }

def dbC1 : DB :=
  { products := [(1, productC1)], discounts := [],
    users := [(7, { usedDiscountCodes := [] })], orders := [] }

/-- The spec's example order request: one line of product 1, quantity 3, no
discount code, delivery fee 5. -/
def reqC1 : OrderReq :=
  { customerInfo := some customerC1, items := some [{ product := 1, quantity := 3 }],
    notes := none, discountCode := none, deliveryFee := some 5 }

def dbC2 : DB :=
  { products := [(1, productC1)], discounts := [],
    users := [(7, { usedDiscountCodes := [] })],
    orders := [(5,
      { orderNumber := "ORD1",
        customerInfo := { name := "J", email := "j@x.com", phone := "1",
                          address := { street := "", city := "" } },
        items := [{ product := 1, quantity := 3, price := 50 }],
        subtotal := 150, discountCode := none, discountAmount := 0,
        deliveryFee := 5, totalAmount := 155, notes := "",
        status := "pending", user := some 7 })] }

/-- A sequence exercising every Order Ledger operation, including a
placeOrder request listing the same product in two line items (two lines of
quantity 6 against stock 10). -/
def opsC2 : List LedgerOp :=
  [.place ⟨7, "user"⟩
      { customerInfo := some customerC1,
        items := some [{ product := 1, quantity := 6 },
                       { product := 1, quantity := 6 }],
        notes := none, discountCode := none, deliveryFee := some 0 } 0,
   .patchStatus 5 (some "cancelled"),
   .patchStatus 5 (some "cancelled"),
   .putOrder 5 { customerInfo := none, status := some "cancelled", notes := none },
   .deleteOp 5]

def orderC3 : OrderDoc :=
  { orderNumber := "ORD3",
    customerInfo := { name := "J", email := "j@x.com", phone := "1",
                      address := { street := "", city := "" } },
    items := [{ product := 1, quantity := 3, price := 50 }],
    subtotal := 150, discountCode := none, discountAmount := 0,
    deliveryFee := 0, totalAmount := 150, notes := "",
    status := "pending", user := none }

def dbC3 : DB :=
  { products := [(1, productC1)], discounts := [], users := [],
    orders := [(5, orderC3)] }

def dbC4 : DB :=
  { products := [(1, { name := "A", price := 1, stock := 5, isActive := true }),
                 (2, { name := "B", price := 2, stock := 10, isActive := true })],
    discounts := [], users := [], orders := [] }

/-- Two line items whose second one requests 11 of product 2 (stock 10). -/
def reqC4multi : OrderReq :=
  { customerInfo := some customerC1,
    items := some [{ product := 1, quantity := 1 },
                   { product := 2, quantity := 11 }],
    notes := none, discountCode := none, deliveryFee := some 0 }

/-- The spec's example: a single line requesting 11 of a product with stock
10. -/
def reqC4single : OrderReq :=
  { customerInfo := some customerC1,
    items := some [{ product := 2, quantity := 11 }],
    notes := none, discountCode := none, deliveryFee := some 0 }

/-- A stored discount code whose `expiresAt` (100) lies strictly before the
evaluation time used below (200). -/
def discC5 : DiscountCodeDoc :=
  { code := "SAVE20", discount := 20, expiresAt := some 100, isActive := true }

def dbC5 : DB :=
  { products := [(1, productC1)], discounts := [discC5],
    users := [(7, { usedDiscountCodes := [] })], orders := [] }

def reqC5 : OrderReq :=
  { customerInfo := some customerC1, items := some [{ product := 1, quantity := 3 }],
    notes := none, discountCode := some "SAVE20", deliveryFee := some 5 }

def dbC6 : DB :=
  { products := [(1, productC1)], discounts := [],
    users := [(7, { usedDiscountCodes := [] })], orders := [] }

/-- An order request by user 7 carrying a discount code that is absent from
the Discount Registry. -/
def reqC6 : OrderReq :=
  { customerInfo := some customerC1, items := some [{ product := 1, quantity := 2 }],
    notes := none, discountCode := some "NOPE", deliveryFee := some 0 }

/-- The spec's example code SAVE20: 20 percent, active, unexpired at the
evaluation time 0 used below. -/
def discC7 : DiscountCodeDoc :=
  { code := "SAVE20", discount := 20, expiresAt := some 999999, isActive := true }

def dbC7 : DB :=
  { products := [], discounts := [discC7],
    users := [(7, { usedDiscountCodes := [] })], orders := [] }

/-- The PUT /orders/:id body `\x7b status: "cancelled" \x7d`. -/
def putCancelReq : PutReq :=
  { customerInfo := none, status := some "cancelled", notes := none }

def dbC8 : DB := dbC3

def dbC9 : DB := dbC3

/-- A token verifier that accepts exactly the token "tok", decoding it to an
end-user payload (role "user", not an admin role). -/
def verifyC9 : String → Option AuthUser :=
  fun t => if t = "tok" then some ⟨7, "user"⟩ else none

def dbC10 : DB := dbC1

/-- A token verifier that rejects every token. -/
def verifyC10 : String → Option AuthUser := fun _ => none

/-! General lemmas about the store operations. -/

theorem findById_updateById {α : Type} (s : List (Nat × α)) (i : Nat)
    (f : α → α) (j : Nat) :
    findById (updateById s i f) j =
      if j = i then (findById s j).map f else findById s j := by
  induction s with
  | nil => simp [findById, updateById]
  | cons e rest ih =>
    simp only [findById, updateById]
    by_cases hi : e.1 = i
    · by_cases hj : e.1 = j
      · subst hi; subst hj; simp [findById]
      · subst hi
        have hj1 : ¬ j = e.1 := fun hh => hj hh.symm
        simp [findById, hj, hj1, ih]
    · by_cases hj : e.1 = j
      · subst hj
        have hi1 : ¬ e.1 = i := hi
        simp [findById, hi1, fun hh : e.1 = i => hi hh]
      · simp [findById, hi, hj, ih]

theorem findById_removeById {α : Type} (s : List (Nat × α)) (i : Nat) :
    findById (removeById s i) i = none := by
  induction s with
  | nil => simp [findById, removeById]
  | cons e rest ih =>
    by_cases hi : e.1 = i <;> simp_all [findById, removeById]

theorem stockOf_incStock (s : List (Nat × Product)) (i : Nat) (d : Int)
    (j : Nat) :
    stockOf (incStock s i d) j =
      if j = i then (stockOf s j).map (fun x => x + d) else stockOf s j := by
  unfold stockOf incStock
  rw [findById_updateById]
  by_cases h : j = i <;> cases hf : findById s j <;> simp [h, hf]

theorem stockOf_restoreStock (items : List OrderItem)
    (s : List (Nat × Product)) (pid : Nat) :
    stockOf (restoreStock s items) pid =
      (stockOf s pid).map (fun x => x + (orderedQty items pid : Int)) := by
  induction items generalizing s with
  | nil =>
    cases hf : stockOf s pid <;> simp [restoreStock, orderedQty, hf]
  | cons it rest ih =>
    simp only [restoreStock, List.foldl_cons] at ih ⊢
    rw [ih, stockOf_incStock]
    by_cases h : pid = it.product
    · cases hf : stockOf s pid
      · simp [orderedQty, h, hf]
      · simp [orderedQty, h, hf]
        ring
    · have h1 : ¬ it.product = pid := fun hh => h hh.symm
      cases hf : stockOf s pid <;> simp [orderedQty, h, h1, hf]

theorem incStock_nonneg {s : List (Nat × Product)} {i : Nat} {d : Int}
    (hs : stocksNonnegL s) (hd : 0 ≤ d) : stocksNonnegL (incStock s i d) := by
  induction s with
  | nil => simp [incStock, updateById, stocksNonnegL]
  | cons a rest ih =>
    intro e he
    simp only [incStock, updateById, List.mem_cons] at he
    rcases he with he | he
    · subst he
      split
      · exact add_nonneg (hs a (by simp)) hd
      · exact hs a (by simp)
    · exact ih (fun x hx => hs x (by simp [hx])) e he

theorem restoreStock_nonneg {items : List OrderItem}
    {s : List (Nat × Product)} (hs : stocksNonnegL s) :
    stocksNonnegL (restoreStock s items) := by
  induction items generalizing s with
  | nil => exact hs
  | cons it rest ih =>
    simp only [restoreStock, List.foldl_cons] at ih ⊢
    exact ih (incStock_nonneg hs (Int.natCast_nonneg _))

/-! Structural facts about the POST /orders handler: because every control
path through the item loop ends in a rejection or in the line-573
`ReferenceError`, the handler never writes to the Product or Order
collections and never produces the 201 response. -/

theorem placeOrder_products (db : DB) (auth : AuthUser) (req : OrderReq)
    (now : Int) : (placeOrder db auth req now).2.products = db.products := by
  unfold placeOrder processItems pushUsedCode
  repeat' split <;> try rfl

theorem placeOrder_orders (db : DB) (auth : AuthUser) (req : OrderReq)
    (now : Int) : (placeOrder db auth req now).2.orders = db.orders := by
  unfold placeOrder processItems pushUsedCode
  repeat' split <;> try rfl

theorem placeOrder_never_created (db : DB) (auth : AuthUser) (req : OrderReq)
    (now : Int) : (placeOrder db auth req now).1.isCreated = false := by
  unfold placeOrder processItems
  repeat' split <;> try rfl

/-! Preservation of stock nonnegativity by each Order Ledger operation. -/

theorem updateStatus_nonneg {db : DB} (h : stocksNonneg db) (oid : Nat)
    (status : Option String) :
    stocksNonneg (updateStatus db oid status).2 := by
  unfold updateStatus
  repeat' split
  all_goals first
    | exact h
    | exact restoreStock_nonneg h

theorem updateOrder_nonneg {db : DB} (h : stocksNonneg db) (oid : Nat)
    (req : PutReq) : stocksNonneg (updateOrder db oid req).2 := by
  unfold updateOrder
  repeat' split
  all_goals first
    | exact h
    | exact restoreStock_nonneg h

theorem deleteOrder_nonneg {db : DB} (h : stocksNonneg db) (oid : Nat) :
    stocksNonneg (deleteOrder db oid).2 := by
  unfold deleteOrder
  repeat' split
  all_goals first
    | exact h
    | exact restoreStock_nonneg h

theorem applyOp_nonneg {db : DB} (h : stocksNonneg db) (op : LedgerOp) :
    stocksNonneg (applyOp db op) := by
  cases op with
  | place auth req now =>
    show stocksNonnegL (placeOrder db auth req now).2.products
    rw [placeOrder_products]
    exact h
  | patchStatus oid status => exact updateStatus_nonneg h oid status
  | putOrder oid req => exact updateOrder_nonneg h oid req
  | deleteOp oid => exact deleteOrder_nonneg h oid

/-! Claim theorems. -/

/-- C1: the claim says a successful placeOrder persists
`subtotal = Σ line.price × line.quantity` and
`totalAmount = max(0, subtotal − discountAmount + deliveryFee)`, and that the
spec's example order (one line of a 50.00-priced product, quantity 3, no
discount, deliveryFee 5) yields 201 with subtotal 150.00 and totalAmount
155.00.  On the code, that example request instead reaches line 573 of
src/routes/orders.js, whose read of the undeclared identifier `subtotal`
throws, producing the 500 response: no order is created, the product's stock
stays 10, and — as the last two conjuncts state for every input — the 201
path of the handler is unreachable and the Order collection is never
written. -/
theorem placeOrder_example_server_error :
    placeOrder dbC1 ⟨7, "user"⟩ reqC1 0 = (.serverError, dbC1) ∧
    PostOrderResp.serverError.httpStatus = 500 ∧
    stockOf dbC1.products 1 = some 10 ∧
    (∀ db auth req now, (placeOrder db auth req now).1.isCreated = false) ∧
    (∀ db auth req now, (placeOrder db auth req now).2.orders = db.orders) :=
  ⟨by decide, by decide, by decide, placeOrder_never_created, placeOrder_orders⟩

/-- C2: for every product, stock ≥ 0 is preserved by every sequence of Order
Ledger operations (order placement, the two cancellation paths, deletion) —
placement never decrements stock (its stock-decrement loop sits beyond the
line-573 throw), and cancellation/deletion only add nonnegative quantities. -/
theorem stock_never_negative (db : DB) (ops : List LedgerOp)
    (h : stocksNonneg db) : stocksNonneg (runOps db ops) := by
  induction ops generalizing db with
  | nil => exact h
  | cons op rest ih =>
    simp only [runOps, List.foldl_cons] at ih ⊢
    exact ih (applyOp db op) (applyOp_nonneg h op)

/-- C2 witness: a concrete run whose placement lists the same product in two
line items (quantity 6 twice against stock 10) followed by double
cancellation, a PUT cancellation and a deletion keeps stock nonnegative. -/
theorem stock_never_negative_witness :
    stocksNonneg dbC2 ∧ stocksNonneg (runOps dbC2 opsC2) :=
  ⟨by decide, stock_never_negative dbC2 opsC2 (by decide)⟩

/-- C3: transitioning an order into `cancelled` from a non-cancelled status
adds each line's quantity to the matching product's stock, while a transition
into `cancelled` of an already-cancelled order leaves every stock unchanged;
in both cases the persisted status is `cancelled`.  This holds for the PATCH
/orders/:id/status handler and for the PUT /orders/:id handler. -/
theorem cancel_restores_stock_once (db : DB) (oid : Nat)
    (order : OrderDoc) (pid : Nat) (st : Int)
    (h1 : findById db.orders oid = some order)
    (h2 : stockOf db.products pid = some st) :
    (order.status ≠ "cancelled" →
      stockOf (updateStatus db oid (some "cancelled")).2.products pid
        = some (st + (orderedQty order.items pid : Int)) ∧
      stockOf (updateOrder db oid putCancelReq).2.products pid
        = some (st + (orderedQty order.items pid : Int))) ∧
    (order.status = "cancelled" →
      (updateStatus db oid (some "cancelled")).2.products = db.products ∧
      (updateOrder db oid putCancelReq).2.products = db.products) ∧
    (findById (updateStatus db oid (some "cancelled")).2.orders oid).map
        (fun o => o.status) = some "cancelled" ∧
    (findById (updateOrder db oid putCancelReq).2.orders oid).map
        (fun o => o.status) = some "cancelled" := by
  unfold updateStatus updateOrder
  rw [h1]
  by_cases hc : order.status = "cancelled"
  · refine ⟨fun hne => absurd hc hne, fun _ => ⟨?_, ?_⟩, ?_, ?_⟩ <;>
      simp +decide [hc, putStatusChange, putCancelReq, putMerged, putNoted,
        putStatused, truthy, findById_updateById, h1, stockOf_restoreStock]
  · have hc2 : ¬ "cancelled" = order.status := fun hh => hc hh.symm
    refine ⟨fun _ => ⟨?_, ?_⟩, fun hcc => absurd hcc hc, ?_, ?_⟩ <;>
      simp +decide [hc, hc2, putStatusChange, putCancelReq, putMerged, putNoted,
        putStatused, truthy, findById_updateById, h1, h2, stockOf_restoreStock]

/-- C3 witness: cancelling the pending order 5 (one line: product 1,
quantity 3) through either handler raises product 1's stock from 10 to 13
and persists status `cancelled`. -/
theorem cancel_restores_stock_once_witness :
    findById dbC3.orders 5 = some orderC3 ∧
    stockOf dbC3.products 1 = some 10 ∧
    ((orderC3.status ≠ "cancelled" →
      stockOf (updateStatus dbC3 5 (some "cancelled")).2.products 1
        = some (10 + (orderedQty orderC3.items 1 : Int)) ∧
      stockOf (updateOrder dbC3 5 putCancelReq).2.products 1
        = some (10 + (orderedQty orderC3.items 1 : Int))) ∧
    (orderC3.status = "cancelled" →
      (updateStatus dbC3 5 (some "cancelled")).2.products = dbC3.products ∧
      (updateOrder dbC3 5 putCancelReq).2.products = dbC3.products) ∧
    (findById (updateStatus dbC3 5 (some "cancelled")).2.orders 5).map
        (fun o => o.status) = some "cancelled" ∧
    (findById (updateOrder dbC3 5 putCancelReq).2.orders 5).map
        (fun o => o.status) = some "cancelled") :=
  ⟨by decide, by decide,
    cancel_restores_stock_once dbC3 5 orderC3 1 10 (by decide) (by decide)⟩

/-- C4: the claim says placeOrder rejects with an insufficient-stock error
whenever SOME line item's product has stock < quantity.  On the code this
only happens when the offending item is processed first: the two-line request
below (first line fine, second line requesting 11 of stock 10) dies in the
500 `ReferenceError` path while processing the FIRST item, never reaching the
insufficient line.  The spec's one-line example (quantity 11, stock 10) is
rejected as described — a 400 carrying available 10 and requested 11 — and
no stock is modified in either case. -/
theorem insufficientStock_only_first_item :
    placeOrder dbC4 ⟨9, "admin"⟩ reqC4multi 0 = (.serverError, dbC4) ∧
    placeOrder dbC4 ⟨9, "admin"⟩ reqC4single 0
      = (.insufficientStock "B" 10 11, dbC4) ∧
    (PostOrderResp.insufficientStock "B" 10 11).httpStatus = 400 := by
  decide

/-- C5: the claim says both placeOrder and checkDiscount reject an expired
code (`now > expiresAt`) with an invalid-state error.  On the code, the
stored code SAVE20 with `expiresAt = 100` evaluated at time 200 is ACCEPTED
by checkDiscount (the handlers read `discount.expiryDate`, a path that does
not exist in the DiscountCode schema, so the expiry guard never fires), and
placeOrder ends in its unconditional 500 — not in the expired rejection —
after having recorded the code against the user. -/
theorem expired_code_accepted :
    discC5.expiresAt = some 100 ∧ (100 : Int) < 200 ∧
    checkDiscount dbC5 ⟨7, "user"⟩ (some "SAVE20") (some 100) 200
      = .valid "SAVE20" 20 "20.00" "100.00" "80.00" ∧
    placeOrder dbC5 ⟨7, "user"⟩ reqC5 200
      = (.serverError, pushUsedCode dbC5 7 "SAVE20") := by
  refine ⟨rfl, by decide, ?_, by decide⟩
  norm_num [checkDiscount, dbC5, discC5, findDiscount, truthy, expiredNow,
    DiscountCodeDoc.expiryDate, findById, toFixed2, Rat.floor]
  decide

/-- C6 counterexample: the claim says a failing placeOrder request leaves the
logged-in caller's consumed-codes set unchanged.  User 7's request carrying
the unknown code "NOPE" fails with the 404 invalid-code rejection, yet the
user's consumed-codes set has gained "NOPE": the handler pushes and saves the
code before looking it up. -/
theorem usedCodes_mutated_on_failed_order :
    placeOrder dbC6 ⟨7, "user"⟩ reqC6 0
      = (.invalidDiscountCode, pushUsedCode dbC6 7 "NOPE") ∧
    PostOrderResp.invalidDiscountCode.httpStatus = 404 ∧
    dbC6.users = [(7, { usedDiscountCodes := [] })] ∧
    (pushUsedCode dbC6 7 "NOPE").users
      = [(7, { usedDiscountCodes := ["NOPE"] })] := by
  decide

/-- C6 as amended: for a logged-in end-user whose request carries a truthy
(nonempty) discount code and reaches the discount handling of the first
item, (1) a code already in the user's consumed-codes set is rejected with
the already-used error and nothing is written; (2) otherwise the code is
recorded into the user's set BEFORE discount validation and order creation,
so each of the three post-recording outcomes — 404 for a code absent from
the registry, 400 for an inactive code, and the line-573 500 that ends every
remaining request (active codes included, the expiry guard being dead) —
leaves the set enlarged by the code although no order exists; (3) the
recording touches no other user's set, so a code consumed by one user stays
usable by another. -/
theorem placeOrder_discount_usage (db : DB) (auth : AuthUser) (req : OrderReq)
    (now : Int) (ci : CustomerInfoReq) (item : ItemReq) (rest : List ItemReq)
    (u : UserDoc) (c : String) (p : Product)
    (hrole : auth.role = "user")
    (huser : findById db.users auth.id = some u)
    (hci : req.customerInfo = some ci)
    (hok : (truthy ci.name && truthy ci.email && truthy ci.phone) = true)
    (hitems : req.items = some (item :: rest))
    (hcode : req.discountCode = some c)
    (hce : c.isEmpty = false)
    (hq : 0 < item.quantity)
    (hp : findById db.products item.product = some p)
    (hact : p.isActive = true)
    (hstock : ¬ p.stock < item.quantity) :
    (u.usedDiscountCodes.contains c = true →
      placeOrder db auth req now = (.discountAlreadyUsed, db)) ∧
    (u.usedDiscountCodes.contains c = false →
      (findDiscount db.discounts c = none →
        placeOrder db auth req now
          = (.invalidDiscountCode, pushUsedCode db auth.id c)) ∧
      (∀ d, findDiscount db.discounts c = some d → d.isActive = false →
        placeOrder db auth req now
          = (.discountNotActive, pushUsedCode db auth.id c)) ∧
      (∀ d, findDiscount db.discounts c = some d → d.isActive = true →
        placeOrder db auth req now
          = (.serverError, pushUsedCode db auth.id c))) ∧
    (∀ uid, uid ≠ auth.id →
      findById (pushUsedCode db auth.id c).users uid
        = findById db.users uid) := by
  have hq1 : ¬ item.quantity ≤ 0 := not_le.mpr hq
  unfold placeOrder processItems
  rw [hci, hitems]
  refine ⟨fun hin => ?_,
    fun hnin => ⟨fun hnd => ?_, fun d hd hdact => ?_, fun d hd hdact => ?_⟩,
    fun uid hne => ?_⟩
  · have hin2 : c ∈ u.usedDiscountCodes := by simpa using hin
    simp +decide [hok, hq1, hp, hact, hstock, hrole, huser, hcode, hce, hin2]
  · have hnin2 : c ∉ u.usedDiscountCodes := by simpa using hnin
    simp +decide [hok, hq1, hp, hact, hstock, hrole, huser, hcode, hce,
      hnin2, hnd]
  · have hnin2 : c ∉ u.usedDiscountCodes := by simpa using hnin
    simp +decide [hok, hq1, hp, hact, hstock, hrole, huser, hcode, hce,
      hnin2, hd, hdact]
  · have hnin2 : c ∉ u.usedDiscountCodes := by simpa using hnin
    simp +decide [hok, hq1, hp, hact, hstock, hrole, huser, hcode, hce,
      hnin2, hd, hdact, expiredNow, DiscountCodeDoc.expiryDate]
  · unfold pushUsedCode
    rw [findById_updateById]
    simp [hne]

/-- C6 witness: the amended statement applied to user 7, the valid one-line
request of `reqC6` and its (truthy) unknown code "NOPE". -/
theorem placeOrder_discount_usage_witness :
    (findById dbC6.users 7 = some { usedDiscountCodes := [] } ∧
     reqC6.customerInfo = some customerC1 ∧
     reqC6.items = some [{ product := 1, quantity := 2 }] ∧
     reqC6.discountCode = some "NOPE" ∧
     "NOPE".isEmpty = false ∧
     findById dbC6.products 1 = some productC1) ∧
    (((UserDoc.mk []).usedDiscountCodes.contains "NOPE" = true →
      placeOrder dbC6 ⟨7, "user"⟩ reqC6 0 = (.discountAlreadyUsed, dbC6)) ∧
    ((UserDoc.mk []).usedDiscountCodes.contains "NOPE" = false →
      (findDiscount dbC6.discounts "NOPE" = none →
        placeOrder dbC6 ⟨7, "user"⟩ reqC6 0
          = (.invalidDiscountCode, pushUsedCode dbC6 7 "NOPE")) ∧
      (∀ d, findDiscount dbC6.discounts "NOPE" = some d → d.isActive = false →
        placeOrder dbC6 ⟨7, "user"⟩ reqC6 0
          = (.discountNotActive, pushUsedCode dbC6 7 "NOPE")) ∧
      (∀ d, findDiscount dbC6.discounts "NOPE" = some d → d.isActive = true →
        placeOrder dbC6 ⟨7, "user"⟩ reqC6 0
          = (.serverError, pushUsedCode dbC6 7 "NOPE"))) ∧
    (∀ uid, uid ≠ 7 →
      findById (pushUsedCode dbC6 7 "NOPE").users uid
        = findById dbC6.users uid)) :=
  ⟨⟨by decide, by decide, by decide, by decide, by decide, by decide⟩,
    placeOrder_discount_usage dbC6 ⟨7, "user"⟩ reqC6 0 customerC1
      { product := 1, quantity := 2 } [] { usedDiscountCodes := [] } "NOPE"
      productC1 (by decide) (by decide) (by decide) (by decide) (by decide)
      (by decide) (by decide) (by decide) (by decide) (by decide) (by decide)⟩

/-- C7: for a code that exists, is active, is unexpired and has not been used
by the caller, checkDiscount — applied to a positive candidate subtotal —
returns `discountAmount = subtotal × percentage / 100` and
`finalAmount = max(0, subtotal − discountAmount)` without writing anything
(the handler returns only a response).  The non-expiry hypothesis is stated
but never needed: the code reads the nonexistent `expiryDate` path, so the
expiry guard cannot fire (see the C5 theorem). -/
theorem checkDiscount_computes (db : DB) (auth : AuthUser) (c : String)
    (t : Rat) (d : DiscountCodeDoc) (now : Int)
    (hc : c.isEmpty = false)
    (ht : 0 < t)
    (hd : findDiscount db.discounts c = some d)
    (hact : d.isActive = true)
    (_hexp : ∀ ts, d.expiresAt = some ts → ¬ now > ts)
    (hused : auth.role = "user" →
      (match findById db.users auth.id with
       | some u => u.usedDiscountCodes.contains c
       | none => false) = false) :
    checkDiscount db auth (some c) (some t) now =
      .valid d.code d.discount (toFixed2 (t * d.discount / 100)) (toFixed2 t)
        (toFixed2 (max 0 (t - t * d.discount / 100))) := by
  have ht1 : ¬ t ≤ 0 := not_le.mpr ht
  unfold checkDiscount
  by_cases hr : auth.role = "user"
  · have h2 := hused hr
    cases hu : findById db.users auth.id with
    | none =>
      simp [truthy, hc, ht1, hd, hact, expiredNow, DiscountCodeDoc.expiryDate,
        hr, hu]
    | some u =>
      rw [hu] at h2
      have h3 : c ∉ u.usedDiscountCodes := by simpa using h2
      simp [truthy, hc, ht1, hd, hact, expiredNow, DiscountCodeDoc.expiryDate,
        hr, hu, h3]
  · simp [truthy, hc, ht1, hd, hact, expiredNow, DiscountCodeDoc.expiryDate, hr]

/-- C7 witness: the spec's example — SAVE20 (20 percent, active, unexpired,
unused by user 7) against subtotal 100 — through the theorem; the resulting
strings are "20.00", "100.00" and "80.00" by the C5 theorem's evaluation of
`toFixed2` at the same percentage. -/
theorem checkDiscount_computes_witness :
    ("SAVE20".isEmpty = false) ∧ ((0 : Rat) < 100) ∧
    findDiscount dbC7.discounts "SAVE20" = some discC7 ∧
    discC7.isActive = true ∧
    checkDiscount dbC7 ⟨7, "user"⟩ (some "SAVE20") (some 100) 0 =
      .valid discC7.code discC7.discount
        (toFixed2 (100 * discC7.discount / 100)) (toFixed2 100)
        (toFixed2 (max 0 (100 - 100 * discC7.discount / 100))) :=
  ⟨by decide, by decide, by decide, by decide,
    checkDiscount_computes dbC7 ⟨7, "user"⟩ "SAVE20" 100 discC7 0 (by decide)
      (by decide) (by decide) (by decide)
      (fun ts h => by injection h with h2; omega)
      (fun _ => by decide)⟩

/-- C8: DELETE /orders/:id restores each line's quantity to the matching
product's stock when the order is not yet cancelled, leaves every stock
unchanged when it is already cancelled, and removes the order record in both
cases. -/
theorem deleteOrder_restores_then_deletes (db : DB) (oid : Nat)
    (order : OrderDoc) (pid : Nat) (st : Int)
    (h1 : findById db.orders oid = some order)
    (h2 : stockOf db.products pid = some st) :
    (deleteOrder db oid).1 = .ok ∧
    (order.status ≠ "cancelled" →
      stockOf (deleteOrder db oid).2.products pid
        = some (st + (orderedQty order.items pid : Int))) ∧
    (order.status = "cancelled" →
      (deleteOrder db oid).2.products = db.products) ∧
    findById (deleteOrder db oid).2.orders oid = none := by
  unfold deleteOrder
  rw [h1]
  refine ⟨rfl, ?_, ?_, ?_⟩
  · intro hc
    have hcb : (order.status != "cancelled") = true := by
      simp [bne_iff_ne, hc]
    simp only [hcb, if_true]
    rw [stockOf_restoreStock, h2]
    rfl
  · intro hc
    simp [hc]
  · exact findById_removeById db.orders oid

/-- C8 witness: deleting the pending order 5 (one line: product 1, quantity
3, stock 10) raises product 1's stock to 13 and removes the order. -/
theorem deleteOrder_restores_then_deletes_witness :
    findById dbC8.orders 5 = some orderC3 ∧
    stockOf dbC8.products 1 = some 10 ∧
    ((deleteOrder dbC8 5).1 = .ok ∧
     (orderC3.status ≠ "cancelled" →
       stockOf (deleteOrder dbC8 5).2.products 1
         = some (10 + (orderedQty orderC3.items 1 : Int))) ∧
     (orderC3.status = "cancelled" →
       (deleteOrder dbC8 5).2.products = dbC8.products) ∧
     findById (deleteOrder dbC8 5).2.orders 5 = none) :=
  ⟨by decide, by decide,
    deleteOrder_restores_then_deletes dbC8 5 orderC3 1 10 (by decide)
      (by decide)⟩

/-- C9: the claim says PATCH /orders/:id/status is admin-only — a valid
token with a non-admin role must be rejected with 401/403 and the order left
unchanged.  On the code the route runs only `verifyToken`, which never
inspects the role: the valid token "tok" decoding to role "user" updates
order 5 to `confirmed` and receives 200.  The claim's other half — an
invalid body status is rejected with 400 and nothing changes — does hold
(last conjunct). -/
theorem patchStatus_no_role_check :
    verifyC9 "tok" = some ⟨7, "user"⟩ ∧
    patchStatusRoute verifyC9 dbC9 (some "Bearer tok") 5 (some "confirmed")
      = (.ok, { dbC9 with
          orders := [(5, { orderC3 with status := "confirmed" })] }) ∧
    patchStatusRoute verifyC9 dbC9 (some "Bearer tok") 5 (some "weird")
      = (.invalidStatus, dbC9) := by
  decide

/-- C10: every POST /orders request without a bearer token that verifies —
missing Authorization header, header not starting with "Bearer ", or a token
failing verification — is answered 401 by the `verifyToken` middleware with
the database untouched: no order is created and no stock changes. -/
theorem postOrders_requires_token (verify : String → Option AuthUser)
    (db : DB) (authHeader : Option String) (req : OrderReq) (now : Int)
    (h : (match authHeader with
          | none => true
          | some s => !(strStartsWith s "Bearer ")
              || (verify (s.drop 7)).isNone) = true) :
    postOrdersRoute verify db authHeader req now = (.noToken, db) ∧
    PostOrderResp.noToken.httpStatus = 401 := by
  refine ⟨?_, rfl⟩
  unfold postOrdersRoute verifyTokenAuth
  cases authHeader with
  | none => rfl
  | some s =>
    cases hsw : strStartsWith s "Bearer " with
    | false => simp [hsw]
    | true =>
      simp only [hsw, Bool.not_true, Bool.false_or] at h
      cases hv : verify (s.drop 7) with
      | none => simp [hsw, hv]
      | some u => rw [hv] at h; simp at h

/-- C10 witness: a well-formed "Bearer abc" header whose token is rejected by
the verifier leaves the spec example's database unchanged and yields 401. -/
theorem postOrders_requires_token_witness :
    ((match (some "Bearer abc" : Option String) with
      | none => true
      | some s => !(strStartsWith s "Bearer ")
          || (verifyC10 (s.drop 7)).isNone) = true) ∧
    (postOrdersRoute verifyC10 dbC10 (some "Bearer abc") reqC1 0
        = (.noToken, dbC10) ∧
     PostOrderResp.noToken.httpStatus = 401) :=
  ⟨by decide, postOrders_requires_token verifyC10 dbC10 (some "Bearer abc")
      reqC1 0 (by decide)⟩

end ECom
